import Mathlib

/-!
Verification of the IP/location demo application (`app.py`, `lab_01.py`,
`lab_01_ip_locate.py`).

The application delegates all geolocation work to external HTTP services, so
every function is embedded as a pure Lean function over (a) a model of JSON
values as handled by Python (`Json` / `JObj`), and (b) oracles standing for the
outcome of the external effects: the result of the upstream HTTP call
(`NominatimResult`, `IpapiResult`) and the behaviour of the socket operations
(`SocketWorld`).

Python-specific semantics that the source relies on are modelled explicitly:
`dict.get` (`pyGet`, `pyGetD`), Python truthiness and the `or` operator
(`Json.truthy`, `pyOr`).  A Python `None` — whether it comes from a JSON
`null` value or from a missing key via `dict.get` — is represented as
`Json.null`, which is exactly the value `jsonify` would serialise back to
`null`.
-/

mutual

/-- A JSON value as manipulated by the Python code.  `null` doubles as the
Python `None` (the two are identified by the Python `json` module and by
`jsonify`). -/
inductive Json where
  | null : Json
  | bool (b : Bool) : Json
  | num (q : ℚ) : Json
  | str (s : String) : Json
  | obj (o : JObj) : Json
  deriving DecidableEq

/-- A JSON object / Python dict: an association list of string keys. -/
inductive JObj where
  | nil : JObj
  | cons (k : String) (v : Json) (rest : JObj) : JObj
  deriving DecidableEq

end

/-- Raw key lookup in a JSON object: `some v` when the key is present with
value `v` (possibly `Json.null`), `none` when the key is absent. -/
def JObj.lookup : JObj → String → Option Json
  | .nil, _ => none
  | .cons k v rest, key => if k = key then some v else rest.lookup key

/-- Convenience constructor for object literals. -/
def jo : List (String × Json) → JObj
  | [] => .nil
  | (k, v) :: rest => .cons k v (jo rest)

/-- Python `data.get(k)`: the stored value when the key is present, `None`
(here `Json.null`) when it is absent. -/
def pyGet (data : JObj) (k : String) : Json :=
  (data.lookup k).getD Json.null

/-- Python `data.get(k, d)`: the stored value when the key is present (even if
that value is `None`), the default `d` when it is absent. -/
def pyGetD (data : JObj) (k : String) (d : Json) : Json :=
  (data.lookup k).getD d

/-- Python truthiness of a JSON value: `None`, `False`, `0`, `""` and `{}` are
falsy, everything else is truthy. -/
def Json.truthy : Json → Bool
  | .null => false
  | .bool b => b
  | .num q => q != 0
  | .str s => s != ""
  | .obj .nil => false
  | .obj (.cons _ _ _) => true

/-- Python `a or b`: `a` when `a` is truthy, otherwise `b`. -/
def pyOr (a b : Json) : Json :=
  if a.truthy then a else b

/-- Look a key up inside a JSON value known to be an object (used to inspect
response bodies built by the handlers). -/
def Json.field : Json → String → Json
  | .obj o, k => pyGet o k
  | _, _ => Json.null

/-- An HTTP response produced by a Flask handler: status code and JSON body. -/
structure HttpResponse where
  status : Nat
  body : Json
  deriving DecidableEq

/-- Outcome of the upstream Nominatim call in `reverse_geocode`, i.e. of
`requests.get(...)` followed by `r.raise_for_status()` and `r.json()`:
either a successfully parsed JSON object, or any exception raised inside the
`try` block (HTTP error status via `raise_for_status`, timeout or network
failure from `requests.get`, malformed body from `r.json()`), carrying the
Python `str(e)` of the exception. -/
inductive NominatimResult where
  | success (resp : JObj) : NominatimResult
  | failure (e : String) : NominatimResult

/-- The Nominatim endpoint URL used by `reverse_geocode`. -/
def nominatim_url : String := "https://nominatim.openstreetmap.org/reverse"

/-- The query parameters `reverse_geocode` sends to Nominatim. -/
def nominatim_params (lat lon : Json) : JObj :=
  jo [("format", .str "jsonv2"),
      ("lat", lat),
      ("lon", lon),
      ("addressdetails", .num 1),
      ("zoom", .num 18)]

/-- The identifying header `reverse_geocode` sends to Nominatim. -/
def nominatim_headers : List (String × String) :=
  [("User-Agent", "IP-to-Address-Demo/1.0 (+youremail@example.com)")]

/-- Embedding of the `POST /reverse` handler `reverse_geocode` in `app.py`
(lines 143–179).  `data` is the parsed JSON body (`request.get_json()`), `u`
is the oracle for the upstream Nominatim call.  The result pairs the HTTP
response with the query parameters sent upstream — `none` when the handler
returned before contacting the upstream service. -/
def reverse_geocode (data : JObj) (u : NominatimResult) :
    HttpResponse × Option JObj :=
  let lat := pyGet data "latitude"
  let lon := pyGet data "longitude"
  if lat = Json.null ∨ lon = Json.null then
    (⟨400, .obj (jo [("error", .str "latitude/longitude required")])⟩, none)
  else
    match u with
    | .success resp =>
      let address := pyGet resp "display_name"
      let address_details := pyGetD resp "address" (.obj .nil)
      (⟨200, .obj (jo [("latitude", lat),
                       ("longitude", lon),
                       ("display_name", address),
                       ("address_details", address_details),
                       ("raw", .obj resp)])⟩,
       some (nominatim_params lat lon))
    | .failure e =>
      (⟨500, .obj (jo [("error", .str ("reverse geocode failed: " ++ e))])⟩,
       some (nominatim_params lat lon))

/-- Outcome of the upstream call in `ip_geolocation`, i.e. of
`requests.get(url, timeout=6)` followed by `r.json()`: either a successfully
parsed JSON object, or any exception raised inside the `try` block (network
error, timeout, malformed or non-object body), carrying `str(e)`. -/
inductive IpapiResult where
  | success (data : JObj) : IpapiResult
  | failure (e : String) : IpapiResult

/-- The URL `ip_geolocation` targets, as a function of the optional IP. -/
def ipapi_url : Option String → String
  | none => "https://ipapi.co/json/"
  | some ip => "https://ipapi.co/" ++ ip ++ "/json/"

/-- Embedding of `ip_geolocation` in `app.py` (lines 99–119).  `ip` is the
optional IP argument (it only selects the URL), `u` is the oracle for the GET
to `ipapi_url ip`. -/
def ip_geolocation (ip : Option String) (u : IpapiResult) : Json :=
  let _url := ipapi_url ip
  match u with
  | .success data =>
    .obj (jo [("ip", pyGet data "ip"),
              ("city", pyGet data "city"),
              ("region", pyGet data "region"),
              ("postal", pyGet data "postal"),
              ("country", pyGet data "country_name"),
              ("latitude", pyOr (pyGet data "latitude") (pyGet data "lat")),
              ("longitude", pyOr (pyGet data "longitude") (pyGet data "lon")),
              ("raw", .obj data)])
  | .failure e => .obj (jo [("error", .str e)])

/-- Oracle for the socket operations performed by the local-IP resolvers:
each field gives the outcome (`Except.error` = the operation raises) of one
socket primitive.  `create` is `socket.socket(family, type)`, `connect` is
`s.connect((host, port))`, `getsockname` is `s.getsockname()[0]` (the local
address string), `close` is `s.close()`. -/
structure SocketWorld where
  create : String → String → Except String Unit
  connect : String → Nat → Except String Unit
  getsockname : Except String String
  close : Except String Unit

/-- Embedding of `get_local_ip` in `app.py` (lines 80–89): the four socket
statements run in order inside `try` (the first exception aborts the rest),
and any exception is converted to the sentinel `"N/A"`. -/
def get_local_ip (w : SocketWorld) : String :=
  let attempt : Except String String :=
    match w.create "AF_INET" "SOCK_DGRAM" with
    | .error e => .error e
    | .ok _ =>
      match w.connect "8.8.8.8" 80 with
      | .error e => .error e
      | .ok _ =>
        match w.getsockname with
        | .error e => .error e
        | .ok ip =>
          match w.close with
          | .error e => .error e
          | .ok _ => .ok ip
  match attempt with
  | .ok ip => ip
  | .error _ => "N/A"

/-- Embedding of `get_ip_address` in `lab_01.py` (lines 4–9): the same four
socket statements run in order with no exception handling — the first
exception propagates to the caller. -/
def lab01_get_ip_address (w : SocketWorld) : Except String String :=
  match w.create "AF_INET" "SOCK_DGRAM" with
  | .error e => .error e
  | .ok _ =>
    match w.connect "8.8.8.8" 80 with
    | .error e => .error e
    | .ok _ =>
      match w.getsockname with
      | .error e => .error e
      | .ok ip =>
        match w.close with
        | .error e => .error e
        | .ok _ => .ok ip

/-- Embedding of `get_ip_address` in `lab_01_ip_locate.py` (lines 4–9): the
source text is identical to the one in `lab_01.py` up to indentation. -/
def lab01_ip_locate_get_ip_address (w : SocketWorld) : Except String String :=
  match w.create "AF_INET" "SOCK_DGRAM" with
  | .error e => .error e
  | .ok _ =>
    match w.connect "8.8.8.8" 80 with
    | .error e => .error e
    | .ok _ =>
      match w.getsockname with
      | .error e => .error e
      | .ok ip =>
        match w.close with
        | .error e => .error e
        | .ok _ => .ok ip

/-- The list of keys of a JSON object, in order. -/
def JObj.keys : JObj → List String
  | .nil => []
  | .cons k _ rest => k :: rest.keys

/-- Helper: the value of each field of the record built by `ip_geolocation`
on a successful upstream response, in terms of the upstream payload. -/
lemma ip_geolocation_success_fields (ip : Option String) (data : JObj) :
    (ip_geolocation ip (.success data)).field "ip" = pyGet data "ip" ∧
    (ip_geolocation ip (.success data)).field "city" = pyGet data "city" ∧
    (ip_geolocation ip (.success data)).field "region" = pyGet data "region" ∧
    (ip_geolocation ip (.success data)).field "postal" = pyGet data "postal" ∧
    (ip_geolocation ip (.success data)).field "country" = pyGet data "country_name" ∧
    (ip_geolocation ip (.success data)).field "latitude"
      = pyOr (pyGet data "latitude") (pyGet data "lat") ∧
    (ip_geolocation ip (.success data)).field "longitude"
      = pyOr (pyGet data "longitude") (pyGet data "lon") := by
  refine ⟨?_, ?_, ?_, ?_, ?_, ?_, ?_⟩ <;>
    simp [ip_geolocation, Json.field, pyGet, jo, JObj.lookup]

/-- Claim C1: for every request body with non-null latitude and longitude for
which the upstream reverse-geocoding call succeeds, the handler returns
status 200 and a body whose latitude and longitude fields equal the input
values unchanged. -/
theorem reverse_geocode_success_preserves_input (data resp : JObj)
    (hlat : pyGet data "latitude" ≠ Json.null)
    (hlon : pyGet data "longitude" ≠ Json.null) :
    (reverse_geocode data (.success resp)).1.status = 200 ∧
    (reverse_geocode data (.success resp)).1.body.field "latitude"
      = pyGet data "latitude" ∧
    (reverse_geocode data (.success resp)).1.body.field "longitude"
      = pyGet data "longitude" := by
  simp only [reverse_geocode]
  rw [if_neg (by rintro (h | h) <;> [exact hlat h; exact hlon h])]
  refine ⟨rfl, ?_, ?_⟩ <;> simp [Json.field, pyGet, jo, JObj.lookup]

/-- Witness for C1 at the body with latitude 10 and longitude 20 and a
successful upstream response. -/
theorem reverse_geocode_success_preserves_input_witness :
    pyGet (jo [("latitude", Json.num 10), ("longitude", Json.num 20)])
        "latitude" ≠ Json.null ∧
    pyGet (jo [("latitude", Json.num 10), ("longitude", Json.num 20)])
        "longitude" ≠ Json.null ∧
    ((reverse_geocode (jo [("latitude", Json.num 10), ("longitude", Json.num 20)])
        (.success (jo [("display_name", Json.str "1250 Bellflower Blvd")]))).1.status
        = 200 ∧
      (reverse_geocode (jo [("latitude", Json.num 10), ("longitude", Json.num 20)])
        (.success (jo [("display_name", Json.str "1250 Bellflower Blvd")]))).1.body.field
          "latitude"
        = pyGet (jo [("latitude", Json.num 10), ("longitude", Json.num 20)]) "latitude" ∧
      (reverse_geocode (jo [("latitude", Json.num 10), ("longitude", Json.num 20)])
        (.success (jo [("display_name", Json.str "1250 Bellflower Blvd")]))).1.body.field
          "longitude"
        = pyGet (jo [("latitude", Json.num 10), ("longitude", Json.num 20)]) "longitude") :=
  ⟨by decide, by decide,
    reverse_geocode_success_preserves_input _ _ (by decide) (by decide)⟩

/-- Claim C2: for every request body whose latitude or longitude is null or
absent, the handler responds with status 400 and the error payload, and the
upstream service is not called (the second component of the result, the
parameters sent upstream, is `none`). -/
theorem reverse_geocode_missing_field_rejected (data : JObj) (u : NominatimResult)
    (h : pyGet data "latitude" = Json.null ∨ pyGet data "longitude" = Json.null) :
    (reverse_geocode data u).1.status = 400 ∧
    (reverse_geocode data u).1.body
      = .obj (jo [("error", .str "latitude/longitude required")]) ∧
    (reverse_geocode data u).2 = none := by
  simp only [reverse_geocode]
  rw [if_pos h]
  exact ⟨rfl, rfl, rfl⟩

/-- Witness for C2 at the body missing latitude, with an upstream stub whose
sentinel payload is observably absent from the response. -/
theorem reverse_geocode_missing_field_rejected_witness :
    (pyGet (jo [("longitude", Json.num 12.5)]) "latitude" = Json.null ∨
      pyGet (jo [("longitude", Json.num 12.5)]) "longitude" = Json.null) ∧
    ((reverse_geocode (jo [("longitude", Json.num 12.5)])
        (.success (jo [("display_name", Json.str "SENTINEL")]))).1.status = 400 ∧
      (reverse_geocode (jo [("longitude", Json.num 12.5)])
        (.success (jo [("display_name", Json.str "SENTINEL")]))).1.body
        = .obj (jo [("error", .str "latitude/longitude required")]) ∧
      (reverse_geocode (jo [("longitude", Json.num 12.5)])
        (.success (jo [("display_name", Json.str "SENTINEL")]))).2 = none) :=
  ⟨by decide, reverse_geocode_missing_field_rejected _ _ (by decide)⟩

/-- Claim C3: for every request body with non-null latitude and longitude, if
the upstream call fails in any way (the oracle is `failure e` for some
exception text `e`), the handler returns status 500 with a body that is
exactly the error payload whose message is non-empty; in particular the body
carries no latitude field, so no partially populated success body is
returned. -/
theorem reverse_geocode_upstream_failure_500 (data : JObj) (e : String)
    (hlat : pyGet data "latitude" ≠ Json.null)
    (hlon : pyGet data "longitude" ≠ Json.null) :
    (reverse_geocode data (.failure e)).1.status = 500 ∧
    (reverse_geocode data (.failure e)).1.body
      = .obj (jo [("error", .str ("reverse geocode failed: " ++ e))]) ∧
    ("reverse geocode failed: " ++ e) ≠ "" ∧
    (reverse_geocode data (.failure e)).1.body.field "latitude" = Json.null := by
  simp only [reverse_geocode]
  rw [if_neg (by rintro (h | h) <;> [exact hlat h; exact hlon h])]
  refine ⟨rfl, rfl, ?_, ?_⟩
  · intro h
    have := congrArg String.length h
    simp [String.length_append] at this
    exact absurd this.1 (by decide)
  · simp [Json.field, pyGet, jo, JObj.lookup]

/-- Witness for C3 at a valid body and a simulated upstream timeout. -/
theorem reverse_geocode_upstream_failure_500_witness :
    pyGet (jo [("latitude", Json.num 33), ("longitude", Json.num (-118))])
        "latitude" ≠ Json.null ∧
    pyGet (jo [("latitude", Json.num 33), ("longitude", Json.num (-118))])
        "longitude" ≠ Json.null ∧
    ((reverse_geocode (jo [("latitude", Json.num 33), ("longitude", Json.num (-118))])
        (.failure "HTTPSConnectionPool: Read timed out.")).1.status = 500 ∧
      (reverse_geocode (jo [("latitude", Json.num 33), ("longitude", Json.num (-118))])
        (.failure "HTTPSConnectionPool: Read timed out.")).1.body
        = .obj (jo [("error",
            .str ("reverse geocode failed: " ++ "HTTPSConnectionPool: Read timed out."))]) ∧
      ("reverse geocode failed: " ++ "HTTPSConnectionPool: Read timed out.") ≠ "" ∧
      (reverse_geocode (jo [("latitude", Json.num 33), ("longitude", Json.num (-118))])
        (.failure "HTTPSConnectionPool: Read timed out.")).1.body.field "latitude"
        = Json.null) :=
  ⟨by decide, by decide,
    reverse_geocode_upstream_failure_500 _ _ (by decide) (by decide)⟩

/-- Claim C4: for every failure of the IP-geolocation upstream call, the
result is exactly the object whose only key is the error description string
(its key list is `["error"]`), so no record field is present. -/
theorem ip_geolocation_failure_error_only (ip : Option String) (e : String) :
    ip_geolocation ip (.failure e) = .obj (jo [("error", .str e)]) ∧
    (jo [("error", .str e)]).keys = ["error"] ∧
    (ip_geolocation ip (.failure e)).field "latitude" = Json.null ∧
    (ip_geolocation ip (.failure e)).field "city" = Json.null :=
  ⟨rfl, rfl, rfl, rfl⟩

/-- Counterexample for C5 as stated: in the payload with longitude 0 and lon
10, the key "longitude" is present with value 0, yet the normalized record
reports longitude 10 (the value of "lon"), not the value 0 of the present
"longitude" key. -/
theorem ip_geolocation_longitude_zero_not_preserved :
    pyGet (jo [("longitude", Json.num 0), ("lon", Json.num 10)]) "longitude"
      = Json.num 0 ∧
    (ip_geolocation none
      (.success (jo [("longitude", Json.num 0), ("lon", Json.num 10)]))).field
        "longitude" = Json.num 10 ∧
    Json.num 10 ≠ Json.num 0 := by decide

/-- Claim C5 as amended: the client maps the field name variants to the
unified keys preferring the more specific name only when the value under the
preferred key is truthy — if "longitude" holds a truthy value it is used,
otherwise (absent, null, 0, or empty) the value of "lon" is used, and
likewise "latitude" over "lat"; in particular if only "lon" is present with
value 10.0, the normalized record reports longitude 10.0. -/
theorem ip_geolocation_truthy_preference (ip : Option String) (data : JObj) :
    ((pyGet data "longitude").truthy = true →
      (ip_geolocation ip (.success data)).field "longitude" = pyGet data "longitude") ∧
    ((pyGet data "longitude").truthy = false →
      (ip_geolocation ip (.success data)).field "longitude" = pyGet data "lon") ∧
    ((pyGet data "latitude").truthy = true →
      (ip_geolocation ip (.success data)).field "latitude" = pyGet data "latitude") ∧
    ((pyGet data "latitude").truthy = false →
      (ip_geolocation ip (.success data)).field "latitude" = pyGet data "lat") := by
  have h := ip_geolocation_success_fields ip data
  refine ⟨?_, ?_, ?_, ?_⟩ <;> intro ht <;>
    simp [h.2.2.2.2.2.1, h.2.2.2.2.2.2, pyOr, ht]

/-- Witness for the amended C5 at the payload holding only lon 10: the
preferred key is absent (hence falsy) and the normalized longitude is the
value of "lon", namely 10. -/
theorem ip_geolocation_truthy_preference_witness :
    (pyGet (jo [("lon", Json.num 10)]) "longitude").truthy = false ∧
    (ip_geolocation none (.success (jo [("lon", Json.num 10)]))).field "longitude"
      = pyGet (jo [("lon", Json.num 10)]) "lon" ∧
    pyGet (jo [("lon", Json.num 10)]) "lon" = Json.num 10 :=
  ⟨by decide, (ip_geolocation_truthy_preference none _).2.1 (by decide), by decide⟩

/-- Claim C7: in the record produced by a successful ip_geolocation call,
each of the fields ip, city, region, postal, country, latitude, longitude
whose source keys are absent from the upstream payload is the null marker,
never the default string "N/A". -/
theorem ip_geolocation_absent_fields_are_null (ip : Option String) (data : JObj) :
    (data.lookup "ip" = none →
      (ip_geolocation ip (.success data)).field "ip" = Json.null) ∧
    (data.lookup "city" = none →
      (ip_geolocation ip (.success data)).field "city" = Json.null) ∧
    (data.lookup "region" = none →
      (ip_geolocation ip (.success data)).field "region" = Json.null) ∧
    (data.lookup "postal" = none →
      (ip_geolocation ip (.success data)).field "postal" = Json.null) ∧
    (data.lookup "country_name" = none →
      (ip_geolocation ip (.success data)).field "country" = Json.null) ∧
    (data.lookup "latitude" = none → data.lookup "lat" = none →
      (ip_geolocation ip (.success data)).field "latitude" = Json.null) ∧
    (data.lookup "longitude" = none → data.lookup "lon" = none →
      (ip_geolocation ip (.success data)).field "longitude" = Json.null) ∧
    Json.null ≠ Json.str "N/A" := by
  obtain ⟨h1, h2, h3, h4, h5, h6, h7⟩ := ip_geolocation_success_fields ip data
  refine ⟨?_, ?_, ?_, ?_, ?_, ?_, ?_, by decide⟩
  · intro ha; simp [h1, pyGet, ha]
  · intro ha; simp [h2, pyGet, ha]
  · intro ha; simp [h3, pyGet, ha]
  · intro ha; simp [h4, pyGet, ha]
  · intro ha; simp [h5, pyGet, ha]
  · intro ha hb; simp [h6, pyGet, ha, hb, pyOr, Json.truthy]
  · intro ha hb; simp [h7, pyGet, ha, hb, pyOr, Json.truthy]

/-- Witness for C7 at the empty upstream payload: every record field is the
null marker. -/
theorem ip_geolocation_absent_fields_are_null_witness :
    (ip_geolocation none (.success (jo []))).field "ip" = Json.null ∧
    (ip_geolocation none (.success (jo []))).field "city" = Json.null ∧
    (ip_geolocation none (.success (jo []))).field "region" = Json.null ∧
    (ip_geolocation none (.success (jo []))).field "postal" = Json.null ∧
    (ip_geolocation none (.success (jo []))).field "country" = Json.null ∧
    (ip_geolocation none (.success (jo []))).field "latitude" = Json.null ∧
    (ip_geolocation none (.success (jo []))).field "longitude" = Json.null :=
  ⟨(ip_geolocation_absent_fields_are_null none (jo [])).1 rfl,
    (ip_geolocation_absent_fields_are_null none (jo [])).2.1 rfl,
    (ip_geolocation_absent_fields_are_null none (jo [])).2.2.1 rfl,
    (ip_geolocation_absent_fields_are_null none (jo [])).2.2.2.1 rfl,
    (ip_geolocation_absent_fields_are_null none (jo [])).2.2.2.2.1 rfl,
    (ip_geolocation_absent_fields_are_null none (jo [])).2.2.2.2.2.1 rfl rfl,
    (ip_geolocation_absent_fields_are_null none (jo [])).2.2.2.2.2.2.1 rfl rfl⟩

/-- Claim C6: the local-IP resolver in `app.py` is total — for every socket
world it returns either the local address reported by getsockname or the
sentinel "N/A", and whenever socket creation or the connect call fails it
returns the sentinel. -/
theorem get_local_ip_sentinel_on_failure (w : SocketWorld) :
    (get_local_ip w = "N/A" ∨
      ∃ ip, w.getsockname = Except.ok ip ∧ get_local_ip w = ip) ∧
    (∀ e, w.create "AF_INET" "SOCK_DGRAM" = Except.error e →
      get_local_ip w = "N/A") ∧
    (∀ e, w.connect "8.8.8.8" 80 = Except.error e →
      get_local_ip w = "N/A") := by
  rcases h1 : w.create "AF_INET" "SOCK_DGRAM" with e1 | u1 <;>
    rcases h2 : w.connect "8.8.8.8" 80 with e2 | u2 <;>
      rcases h3 : w.getsockname with e3 | ip <;>
        rcases h4 : w.close with e4 | u4 <;>
          refine ⟨?_, fun e he => by simp [get_local_ip, h1, h2, h3, h4] at he ⊢,
            fun e he => by simp [get_local_ip, h1, h2, h3, h4] at he ⊢⟩ <;>
            simp [get_local_ip, h1, h2, h3, h4]

/-- Witness for C6 at a world whose socket creation raises: the sentinel is
returned. -/
theorem get_local_ip_sentinel_on_failure_witness :
    SocketWorld.create
      ⟨fun _ _ => Except.error "socket creation failed", fun _ _ => Except.ok (),
        Except.ok "10.0.0.5", Except.ok ()⟩ "AF_INET" "SOCK_DGRAM"
      = Except.error "socket creation failed" ∧
    get_local_ip
      ⟨fun _ _ => Except.error "socket creation failed", fun _ _ => Except.ok (),
        Except.ok "10.0.0.5", Except.ok ()⟩ = "N/A" :=
  ⟨rfl, (get_local_ip_sentinel_on_failure _).2.1 "socket creation failed" rfl⟩

/-- Claim C8: the validation of the `POST /reverse` handler rejects with 400,
without calling upstream, exactly when latitude or longitude is null or
absent; any non-null value — including 0 and non-numeric strings — passes
validation and is forwarded to the upstream service as the lat/lon query
parameters. -/
theorem reverse_geocode_validation_null_iff (data : JObj) (u : NominatimResult) :
    ((reverse_geocode data u).1.status = 400
      ↔ (pyGet data "latitude" = Json.null ∨ pyGet data "longitude" = Json.null)) ∧
    ((reverse_geocode data u).2 = none
      ↔ (pyGet data "latitude" = Json.null ∨ pyGet data "longitude" = Json.null)) ∧
    (pyGet data "latitude" ≠ Json.null → pyGet data "longitude" ≠ Json.null →
      (reverse_geocode data u).2
        = some (nominatim_params (pyGet data "latitude") (pyGet data "longitude"))) := by
  simp only [reverse_geocode]
  by_cases h : pyGet data "latitude" = Json.null ∨ pyGet data "longitude" = Json.null
  · rw [if_pos h]
    refine ⟨by simp [h], by simp [h], ?_⟩
    intro hlat hlon
    rcases h with h | h
    · exact absurd h hlat
    · exact absurd h hlon
  · rw [if_neg h]
    cases u <;> simp [h]

/-- Witness for C8 at a body with latitude 0 and a non-numeric longitude
string: both pass validation and are forwarded to the upstream service. -/
theorem reverse_geocode_validation_null_iff_witness :
    pyGet (jo [("latitude", Json.num 0), ("longitude", Json.str "zero")])
        "latitude" ≠ Json.null ∧
    pyGet (jo [("latitude", Json.num 0), ("longitude", Json.str "zero")])
        "longitude" ≠ Json.null ∧
    (reverse_geocode (jo [("latitude", Json.num 0), ("longitude", Json.str "zero")])
        (.failure "t")).2
      = some (nominatim_params
          (pyGet (jo [("latitude", Json.num 0), ("longitude", Json.str "zero")])
            "latitude")
          (pyGet (jo [("latitude", Json.num 0), ("longitude", Json.str "zero")])
            "longitude")) :=
  ⟨by decide, by decide,
    (reverse_geocode_validation_null_iff _ _).2.2 (by decide) (by decide)⟩

/-- Claim C9: in ip_geolocation the coordinate fallback is by Python
truthiness, not key presence — whenever the "longitude" key is present with a
falsy value (null, 0, or the empty string), the normalized longitude is the
value obtained from the "lon" key (which is the null marker when "lon" is
absent), and likewise for "latitude"/"lat". -/
theorem ip_geolocation_falsy_fallback (ip : Option String) (data : JObj) :
    (∀ v, data.lookup "longitude" = some v → v.truthy = false →
      (ip_geolocation ip (.success data)).field "longitude" = pyGet data "lon") ∧
    (∀ v, data.lookup "latitude" = some v → v.truthy = false →
      (ip_geolocation ip (.success data)).field "latitude" = pyGet data "lat") := by
  have h := ip_geolocation_success_fields ip data
  constructor
  · intro v hv ht; simp [h.2.2.2.2.2.2, pyGet, hv, pyOr, ht]
  · intro v hv ht; simp [h.2.2.2.2.2.1, pyGet, hv, pyOr, ht]

/-- Witness for C9 at the payload with longitude 0, lon 10, latitude the
empty string, and lat 5: the genuine zero coordinate under the preferred key
is not preserved — both normalized coordinates come from the fallback keys. -/
theorem ip_geolocation_falsy_fallback_witness :
    (jo [("latitude", Json.str ""), ("lat", Json.num 5),
      ("longitude", Json.num 0), ("lon", Json.num 10)]).lookup "longitude"
      = some (Json.num 0) ∧
    (Json.num 0).truthy = false ∧
    (ip_geolocation none (.success (jo [("latitude", Json.str ""), ("lat", Json.num 5),
        ("longitude", Json.num 0), ("lon", Json.num 10)]))).field "longitude"
      = pyGet (jo [("latitude", Json.str ""), ("lat", Json.num 5),
          ("longitude", Json.num 0), ("lon", Json.num 10)]) "lon" ∧
    (ip_geolocation none (.success (jo [("latitude", Json.str ""), ("lat", Json.num 5),
        ("longitude", Json.num 0), ("lon", Json.num 10)]))).field "latitude"
      = pyGet (jo [("latitude", Json.str ""), ("lat", Json.num 5),
          ("longitude", Json.num 0), ("lon", Json.num 10)]) "lat" :=
  ⟨by decide, by decide,
    (ip_geolocation_falsy_fallback none _).1 (Json.num 0) (by decide) (by decide),
    (ip_geolocation_falsy_fallback none _).2 (Json.str "") (by decide) (by decide)⟩

/-- Claim C10: the get_ip_address functions of `lab_01.py` and
`lab_01_ip_locate.py` are equivalent — on every socket world they return the
same result — and both propagate a socket-creation exception to the caller
instead of returning a sentinel. -/
theorem lab_scripts_get_ip_address_equivalent (w : SocketWorld) :
    lab01_get_ip_address w = lab01_ip_locate_get_ip_address w ∧
    (∀ e, w.create "AF_INET" "SOCK_DGRAM" = Except.error e →
      lab01_get_ip_address w = Except.error e ∧
      lab01_ip_locate_get_ip_address w = Except.error e) := by
  refine ⟨rfl, fun e he => ?_⟩
  constructor <;>
    simp [lab01_get_ip_address, lab01_ip_locate_get_ip_address, he]

/-- Witness for C10 at a world whose socket creation raises: both scripts
propagate the exception unchanged. -/
theorem lab_scripts_get_ip_address_equivalent_witness :
    SocketWorld.create
      ⟨fun _ _ => Except.error "boom", fun _ _ => Except.ok (),
        Except.ok "10.0.0.5", Except.ok ()⟩ "AF_INET" "SOCK_DGRAM"
      = Except.error "boom" ∧
    lab01_get_ip_address
      ⟨fun _ _ => Except.error "boom", fun _ _ => Except.ok (),
        Except.ok "10.0.0.5", Except.ok ()⟩ = Except.error "boom" ∧
    lab01_ip_locate_get_ip_address
      ⟨fun _ _ => Except.error "boom", fun _ _ => Except.ok (),
        Except.ok "10.0.0.5", Except.ok ()⟩ = Except.error "boom" :=
  ⟨rfl, ((lab_scripts_get_ip_address_equivalent _).2 "boom" rfl).1,
    ((lab_scripts_get_ip_address_equivalent _).2 "boom" rfl).2⟩
